import Mathlib

/-!
# Verification of the Swap-event decoding and price-normalization core

Shallow embedding of the core of `glider-strat-2`: the token-position
resolver (`src/data_collection/utils.py`: `get_token0`, `get_token1`,
`detect_if_alt_token_is_token0`), the price derivation
(`compute_price_in_quote_token`) and the Swap-log decoders
(`process_swap_log` in `src/data_collection/utils.py`, and the variant
shared by `src/transaction_screener.py` and
`src/data_collection/transaction_screener.py`, embedded once as
`process_swap_log_screener` since the two files' decode bodies are
identical).

Python strings are modelled as `String` (a structure over `List Char` in
this Lean version); the Python operations used by the source
(`s.lower()`, `s[2:]`, `s[-40:]`) are modelled on the character list.
Python integers are `Int`/`Nat`; the float results of `/` are modelled
as exact rationals `ℚ` (the spec's own reading: "exact
rational/floating value").  A Python function that can raise is
modelled in `Except PyError`.
-/

/-- Python-level errors raised by the embedded code.  `zeroDivision`
models Python's `ZeroDivisionError` from `1 / raw_price`; `keyError`
models `log["data"]` on a missing key; `decodeError` models both a
`bytes.fromhex` failure and an `eth_abi` decode failure;
`resolutionMismatch` models the `Exception` raised by
`detect_if_alt_token_is_token0`, carrying (in the order they appear in
the message f-string) the pool address, the alt token address, and the
two resolved slot addresses `token0` and `token1`. -/
inductive PyError where
  | zeroDivision : PyError
  | keyError : String → PyError
  | decodeError : PyError
  | resolutionMismatch : String → String → String → String → PyError
deriving DecidableEq, Repr

/-- Python `s.lower()` (per-character lowercasing; for the ASCII hex and
address strings handled here this agrees with `Char.toLower`). -/
def pyLower (s : String) : String := String.mk (s.data.map Char.toLower)

/-- Python `s[n:]` for `n ≥ 0`. -/
def pyDrop (s : String) (n : Nat) : String := String.mk (s.data.drop n)

/-- Python `s[-n:]`: the last `n` characters (the whole string when it is
shorter than `n`, which is what `List.drop`'s truncated subtraction gives). -/
def pyTail (s : String) (n : Nat) : String :=
  String.mk (s.data.drop (s.data.length - n))

/-- One hex digit's value, as accepted by Python's `bytes.fromhex`. -/
def hexDigitVal (c : Char) : Option Nat :=
  if '0' ≤ c ∧ c ≤ '9' then some (c.toNat - 48)
  else if 'a' ≤ c ∧ c ≤ 'f' then some (c.toNat - 87)
  else if 'A' ≤ c ∧ c ≤ 'F' then some (c.toNat - 55)
  else none

/-- Pairs of hex digits to bytes; `none` on an odd count or a non-hex
character.  (Python's `bytes.fromhex` additionally tolerates ASCII
whitespace between bytes; no decoded log payload contains whitespace and
no claim depends on that tolerance, so it is not modelled.) -/
def hexPairsToBytes : List Char → Option (List Nat)
  | [] => some []
  | [_] => none
  | c1 :: c2 :: rest => do
      let hi ← hexDigitVal c1
      let lo ← hexDigitVal c2
      let bs ← hexPairsToBytes rest
      pure ((hi * 16 + lo) :: bs)

/-- Python `bytes.fromhex(s)` (modulo the whitespace tolerance noted at
`hexPairsToBytes`). -/
def pyBytesFromHex (s : String) : Option (List Nat) := hexPairsToBytes s.data

/-- Big-endian byte list to `Nat`. -/
def wordToNat (bs : List Nat) : Nat := bs.foldl (fun a b => a * 256 + b) 0

/-- Two's-complement reading of a 256-bit word, as `eth_abi` decodes
`int256`. -/
def asInt256 (n : Nat) : Int :=
  if n < 2 ^ 255 then (n : Int) else (n : Int) - 2 ^ 256

/-- Models `eth_abi.abi.decode(["int256", "int256", "uint160", "uint128",
"int256"], data)`: five consecutive 32-byte words; fails when fewer than
160 bytes are available, or (eth_abi strict mode) when the zero-padding
bytes of the `uint160` or `uint128` word are nonzero. -/
def ethAbiDecodeSwap (bs : List Nat) : Option (Int × Int × Nat × Nat × Int) :=
  if bs.length < 160 then none
  else
    let w0 := bs.take 32
    let w1 := (bs.drop 32).take 32
    let w2 := (bs.drop 64).take 32
    let w3 := (bs.drop 96).take 32
    let w4 := (bs.drop 128).take 32
    if (w2.take 12).all (· = 0) ∧ (w3.take 16).all (· = 0) then
      some (asInt256 (wordToNat w0), asInt256 (wordToNat w1),
            wordToNat w2, wordToNat w3, asInt256 (wordToNat w4))
    else none

/-- The constant `S.SWAP_TOPIC` from `src/config/settings.py`. -/
def SWAP_TOPIC : String :=
  "0xc42079f94a6350d7e6235f29174924f928cc2ac818eb64fed8004e115fbcca67"

/-- A raw JSON-RPC log entry, restricted to the fields the decoders
read: `log.get("topics", [])` (absent modelled as `[]`), `log["data"]`
(absent modelled as `none`, on which the subscript raises `KeyError`),
and `log.get("transactionHash")` (absent modelled as `none`). -/
structure RawLog where
  topics : List String
  data : Option String
  transactionHash : Option String

/-- The dict returned by a successful `process_swap_log`: exactly the
keys `tx_hash`, `amount0`, `amount1`, `price`, `trade_type`. -/
structure DecodedSwap where
  tx_hash : Option String
  amount0 : Int
  amount1 : Int
  price : ℚ
  trade_type : String
deriving DecidableEq, Repr

/-- Embeds `get_token0` from `src/data_collection/utils.py`, parameterized by
the 32-byte `eth_call` result (the JSON-RPC transport is the
out-of-scope collaborator): `"0x" + result_hex[-40:].lower()`. -/
def get_token0 (result_hex : String) : String :=
  "0x" ++ pyLower (pyTail result_hex 40)

/-- Embeds `get_token1` from `src/data_collection/utils.py`, same extraction as
`get_token0` with the other fixed selector's call result. -/
def get_token1 (result_hex : String) : String :=
  "0x" ++ pyLower (pyTail result_hex 40)

/-- Embeds `detect_if_alt_token_is_token0` from `src/data_collection/utils.py`,
parameterized by the two `eth_call` result words the collaborator
returns for the `token0()` and `token1()` selectors. -/
def detect_if_alt_token_is_token0 (pool_address alt_token_address : String)
    (t0_result t1_result : String) : Except PyError Bool :=
  let t0 := get_token0 t0_result
  let t1 := get_token1 t1_result
  if pyLower alt_token_address = pyLower t0 then .ok true
  else if pyLower alt_token_address = pyLower t1 then .ok false
  else .error (.resolutionMismatch pool_address alt_token_address t0 t1)

/-- Embeds `compute_price_in_quote_token` from `src/data_collection/utils.py`:
`raw_price = sqrt_price_x96 ** 2 / 2 ** 192`, returned directly when the
alt token is token0, else `1 / raw_price` (which raises
`ZeroDivisionError` in Python exactly when `raw_price` is zero, i.e.
when `sqrt_price_x96 = 0`, since no nonzero value underflows here). -/
def compute_price_in_quote_token (sqrt_price_x96 : Nat)
    (alt_token_is_token0 : Bool) : Except PyError ℚ :=
  let raw_price : ℚ := ((sqrt_price_x96 : ℚ) ^ 2) / 2 ^ 192
  if alt_token_is_token0 then .ok raw_price
  else if raw_price = 0 then .error .zeroDivision
  else .ok (1 / raw_price)

/-- Embeds `process_swap_log` from `src/data_collection/utils.py`. -/
def process_swap_log (log : RawLog) (alt_token_is_token0 : Bool) :
    Except PyError (Option DecodedSwap) :=
  match log.topics.head? with
  | none => .ok none
  | some t0 =>
    if pyLower t0 ≠ pyLower SWAP_TOPIC then .ok none
    else
      match log.data with
      | none => .error (.keyError ("data"))
      | some d =>
        match pyBytesFromHex (pyDrop d 2) with
        | none => .error .decodeError
        | some bs =>
          match ethAbiDecodeSwap bs with
          | none => .error .decodeError
          | some (amount0, amount1, sqrt_price_x96, _liquidity, _tick) =>
            let trade_type :=
              if alt_token_is_token0 then (if amount0 > 0 then "buy" else "sell")
              else (if amount1 > 0 then "buy" else "sell")
            match compute_price_in_quote_token sqrt_price_x96 alt_token_is_token0 with
            | .error e => .error e
            | .ok price_in_quote =>
              .ok (some { tx_hash := log.transactionHash, amount0 := amount0,
                          amount1 := amount1, price := price_in_quote,
                          trade_type := trade_type })

/-- Embeds `process_swap_log` as duplicated in `src/transaction_screener.py`
and `src/data_collection/transaction_screener.py` (identical bodies):
the topic is compared as `topics[0].lower() != S.SWAP_TOPIC` (the
constant is already lower case), and the price is always
`sqrt_price_x96 ** 2 / 2 ** 192`, with no inversion for the
`token_is_token0 = False` case. -/
def process_swap_log_screener (log : RawLog) (token_is_token0 : Bool) :
    Except PyError (Option DecodedSwap) :=
  match log.topics.head? with
  | none => .ok none
  | some t0 =>
    if pyLower t0 ≠ SWAP_TOPIC then .ok none
    else
      match log.data with
      | none => .error (.keyError ("data"))
      | some d =>
        match pyBytesFromHex (pyDrop d 2) with
        | none => .error .decodeError
        | some bs =>
          match ethAbiDecodeSwap bs with
          | none => .error .decodeError
          | some (amount0, amount1, sqrt_price_x96, _liquidity, _tick) =>
            let trade_type :=
              if token_is_token0 then (if amount0 > 0 then "buy" else "sell")
              else (if amount1 > 0 then "buy" else "sell")
            let price : ℚ := ((sqrt_price_x96 : ℚ) ^ 2) / 2 ^ 192
            .ok (some { tx_hash := log.transactionHash, amount0 := amount0,
                        amount1 := amount1, price := price,
                        trade_type := trade_type })

/-- The payload-parsing pipeline both decoders apply to `log["data"]`:
`eth_abi.abi.decode(..., bytes.fromhex(log["data"][2:]))`, `none` when
the data field is missing or either stage fails. -/
def parseSwapLogData (log : RawLog) : Option (Int × Int × Nat × Nat × Int) :=
  log.data.bind fun d => (pyBytesFromHex (pyDrop d 2)).bind ethAbiDecodeSwap

set_option maxRecDepth 10000

/-! ## Concrete example logs used by witnesses and counterexamples -/

/-- A run of hex zero digits. -/
def zeros (n : Nat) : String := String.mk (List.replicate n '0')

/-- One 32-byte ABI word holding the value 1. -/
def wordOne : String := zeros 63 ++ "1"

/-- One 32-byte ABI word holding `2 ^ 97` (a `sqrtPriceX96` whose raw
price is exactly 4). -/
def wordSqrt : String := zeros 39 ++ "2" ++ zeros 24

/-- Payload with `amount0 = 1`, `amount1 = 1`, `sqrtPriceX96 = 2 ^ 97`,
`liquidity = 0`, `tick = 0`. -/
def exDataA : String := "0x" ++ wordOne ++ wordOne ++ wordSqrt ++ zeros 64 ++ zeros 64

/-- Same as `exDataA` except `liquidity = 1` and `tick = 1`. -/
def exDataB : String :=
  "0x" ++ wordOne ++ wordOne ++ wordSqrt ++ (zeros 63 ++ "1") ++ (zeros 63 ++ "1")

/-- Payload of 160 zero bytes: `amount0 = amount1 = 0`, `sqrtPriceX96 = 0`. -/
def exDataZero : String := "0x" ++ zeros 320

/-- A well-formed Swap log carrying `exDataA`. -/
def exLogA : RawLog :=
  { topics := [SWAP_TOPIC], data := some exDataA, transactionHash := some ("0xabc") }

/-- A well-formed Swap log agreeing with `exLogA` except for the unused
liquidity and tick payload fields. -/
def exLogB : RawLog :=
  { topics := [SWAP_TOPIC], data := some exDataB, transactionHash := some ("0xabc") }

/-- A well-formed Swap log whose `sqrtPriceX96` is zero. -/
def exLogZero : RawLog :=
  { topics := [SWAP_TOPIC], data := some exDataZero, transactionHash := some ("0xdef") }

/-- A well-formed Swap log with no transaction hash. -/
def exLogNoTx : RawLog :=
  { topics := [SWAP_TOPIC], data := some exDataA, transactionHash := none }

/-- A log whose first topic is not the Swap signature. -/
def exLogOther : RawLog :=
  { topics := ["0xdeadbeef"], data := some exDataA, transactionHash := some ("0xabc") }

/-- A Swap-topic log whose data payload is not valid hex. -/
def exLogBadHex : RawLog :=
  { topics := [SWAP_TOPIC], data := some ("0xzz"), transactionHash := some ("0xabc") }

/-- A Swap-topic log whose data payload is valid hex but shorter than
the five 32-byte words the ABI decode expects. -/
def exLogShort : RawLog :=
  { topics := [SWAP_TOPIC], data := some ("0x" ++ zeros 64), transactionHash := some ("0xabc") }

/-! ## Helper lemmas -/

/-- The configured Swap topic constant is already lower case. -/
lemma pyLower_SWAP_TOPIC : pyLower SWAP_TOPIC = SWAP_TOPIC := by decide

lemma price_at_2pow97_true :
    compute_price_in_quote_token (2 ^ 97) true = .ok 4 := by
  simp [compute_price_in_quote_token]
  norm_num

lemma price_at_2pow97_false :
    compute_price_in_quote_token (2 ^ 97) false = .ok (1 / 4) := by
  simp [compute_price_in_quote_token]
  norm_num

lemma price_at_zero_true :
    compute_price_in_quote_token 0 true = .ok 0 := by
  simp [compute_price_in_quote_token]

lemma price_at_zero_false :
    compute_price_in_quote_token 0 false = .error .zeroDivision := by
  simp [compute_price_in_quote_token]

/-- Inversion for the price derivation: a successful result is `raw` for
token0 and `1 / raw` otherwise. -/
lemma compute_price_ok_inv (s : Nat) (flag : Bool) (p : ℚ)
    (h : compute_price_in_quote_token s flag = .ok p) :
    p = (if flag then ((s : ℚ) ^ 2 / 2 ^ 192) else 1 / ((s : ℚ) ^ 2 / 2 ^ 192)) := by
  cases flag with
  | true => simpa [compute_price_in_quote_token] using h.symm
  | false =>
    by_cases hz : ((s : ℚ) ^ 2 / 2 ^ 192) = 0
    · simp [compute_price_in_quote_token, hz] at h
    · simpa [compute_price_in_quote_token, hz] using h.symm

/-- A missing first topic short-circuits both decoders to the absent
result. -/
lemma process_topic_none (log : RawLog) (flag flag' : Bool)
    (h : log.topics.head? = none) :
    process_swap_log log flag = .ok none ∧
    process_swap_log_screener log flag' = .ok none := by
  constructor
  · unfold process_swap_log
    rw [h]
  · unfold process_swap_log_screener
    rw [h]

/-- A non-matching first topic short-circuits both decoders to the
absent result. -/
lemma process_topic_mismatch (log : RawLog) (flag flag' : Bool) (t0 : String)
    (h : log.topics.head? = some t0)
    (hne : pyLower t0 ≠ pyLower SWAP_TOPIC) :
    process_swap_log log flag = .ok none ∧
    process_swap_log_screener log flag' = .ok none := by
  have hne' : pyLower t0 ≠ SWAP_TOPIC := by rw [← pyLower_SWAP_TOPIC]; exact hne
  constructor
  · unfold process_swap_log
    rw [h]
    simp [hne]
  · unfold process_swap_log_screener
    rw [h]
    simp [hne']

/-- Forward characterization of a successful `process_swap_log` run:
matching topic, present data, five-field decode, successful price
derivation. -/
lemma process_swap_log_eq_ok (log : RawLog) (flag : Bool) (t0 d : String)
    (a0 a1 : Int) (s liq : Nat) (tick : Int) (p : ℚ)
    (htop : log.topics.head? = some t0)
    (hmatch : pyLower t0 = pyLower SWAP_TOPIC)
    (hdata : log.data = some d)
    (hparse : (pyBytesFromHex (pyDrop d 2)).bind ethAbiDecodeSwap = some (a0, a1, s, liq, tick))
    (hprice : compute_price_in_quote_token s flag = .ok p) :
    process_swap_log log flag =
      .ok (some { tx_hash := log.transactionHash, amount0 := a0, amount1 := a1,
                  price := p,
                  trade_type := if flag then (if a0 > 0 then "buy" else "sell")
                                else (if a1 > 0 then "buy" else "sell") }) := by
  cases hbs : pyBytesFromHex (pyDrop d 2) with
  | none => simp [hbs] at hparse
  | some bs =>
    rw [hbs] at hparse
    simp only [Option.some_bind] at hparse
    simp only [process_swap_log, htop, hdata, hmatch, ne_eq, not_true_eq_false,
      if_false, ite_false, hbs, hparse, hprice]

/-- Forward characterization of a failing `process_swap_log` run whose
price derivation raises. -/
lemma process_swap_log_eq_error (log : RawLog) (flag : Bool) (t0 d : String)
    (a0 a1 : Int) (s liq : Nat) (tick : Int) (e : PyError)
    (htop : log.topics.head? = some t0)
    (hmatch : pyLower t0 = pyLower SWAP_TOPIC)
    (hdata : log.data = some d)
    (hparse : (pyBytesFromHex (pyDrop d 2)).bind ethAbiDecodeSwap = some (a0, a1, s, liq, tick))
    (hprice : compute_price_in_quote_token s flag = .error e) :
    process_swap_log log flag = .error e := by
  cases hbs : pyBytesFromHex (pyDrop d 2) with
  | none => simp [hbs] at hparse
  | some bs =>
    rw [hbs] at hparse
    simp only [Option.some_bind] at hparse
    simp only [process_swap_log, htop, hdata, hmatch, ne_eq, not_true_eq_false,
      if_false, ite_false, hbs, hparse, hprice]

/-- Forward characterization of a successful `process_swap_log_screener`
run: same decode pipeline, but the price is always the raw ratio. -/
lemma process_swap_log_screener_eq_ok (log : RawLog) (flag : Bool) (t0 d : String)
    (a0 a1 : Int) (s liq : Nat) (tick : Int)
    (htop : log.topics.head? = some t0)
    (hmatch : pyLower t0 = pyLower SWAP_TOPIC)
    (hdata : log.data = some d)
    (hparse : (pyBytesFromHex (pyDrop d 2)).bind ethAbiDecodeSwap = some (a0, a1, s, liq, tick)) :
    process_swap_log_screener log flag =
      .ok (some { tx_hash := log.transactionHash, amount0 := a0, amount1 := a1,
                  price := ((s : ℚ) ^ 2 / 2 ^ 192),
                  trade_type := if flag then (if a0 > 0 then "buy" else "sell")
                                else (if a1 > 0 then "buy" else "sell") }) := by
  have hmatch' : pyLower t0 = SWAP_TOPIC := by rw [hmatch, pyLower_SWAP_TOPIC]
  cases hbs : pyBytesFromHex (pyDrop d 2) with
  | none => simp [hbs] at hparse
  | some bs =>
    rw [hbs] at hparse
    simp only [Option.some_bind] at hparse
    simp only [process_swap_log_screener, htop, hdata, hmatch', ne_eq, not_true_eq_false,
      if_false, ite_false, hbs, hparse]

/-- Both decoders reject a topic-matching log whose payload fails either
decode stage. -/
lemma process_decode_failure (log : RawLog) (flag flag' : Bool) (t0 d : String)
    (htop : log.topics.head? = some t0)
    (hmatch : pyLower t0 = pyLower SWAP_TOPIC)
    (hdata : log.data = some d)
    (hbad : (pyBytesFromHex (pyDrop d 2)).bind ethAbiDecodeSwap = none) :
    process_swap_log log flag = .error .decodeError ∧
    process_swap_log_screener log flag' = .error .decodeError := by
  have hmatch' : pyLower t0 = SWAP_TOPIC := by rw [hmatch, pyLower_SWAP_TOPIC]
  cases hbs : pyBytesFromHex (pyDrop d 2) with
  | none =>
    constructor
    · simp only [process_swap_log, htop, hdata, hmatch, ne_eq, not_true_eq_false,
        if_false, ite_false, hbs]
    · simp only [process_swap_log_screener, htop, hdata, hmatch', ne_eq, not_true_eq_false,
        if_false, ite_false, hbs]
  | some bs =>
    rw [hbs] at hbad
    simp only [Option.some_bind] at hbad
    constructor
    · simp only [process_swap_log, htop, hdata, hmatch, ne_eq, not_true_eq_false,
        if_false, ite_false, hbs, hbad]
    · simp only [process_swap_log_screener, htop, hdata, hmatch', ne_eq, not_true_eq_false,
        if_false, ite_false, hbs, hbad]

/-- Inversion of a successful `process_swap_log` run: the topic matched,
the payload decoded, and every field of the record is determined. -/
lemma process_swap_log_ok_some_inv (log : RawLog) (flag : Bool) (rec : DecodedSwap)
    (h : process_swap_log log flag = .ok (some rec)) :
    ∃ t0 d a0 a1 s liq tick,
      log.topics.head? = some t0 ∧ pyLower t0 = pyLower SWAP_TOPIC ∧
      log.data = some d ∧
      (pyBytesFromHex (pyDrop d 2)).bind ethAbiDecodeSwap = some (a0, a1, s, liq, tick) ∧
      compute_price_in_quote_token s flag = .ok rec.price ∧
      rec.tx_hash = log.transactionHash ∧ rec.amount0 = a0 ∧ rec.amount1 = a1 ∧
      rec.trade_type = (if flag then (if a0 > 0 then "buy" else "sell")
                        else (if a1 > 0 then "buy" else "sell")) := by
  unfold process_swap_log at h
  split at h
  · simp at h
  · rename_i t0 htop
    split at h
    · simp at h
    · rename_i hne
      rw [not_not] at hne
      split at h
      · simp at h
      · rename_i d hdata
        split at h
        · simp at h
        · rename_i bs hbs
          split at h
          · simp at h
          · rename_i tup a0 a1 s liq tick htup
            cases hpr : compute_price_in_quote_token s flag with
            | error e =>
              rw [hpr] at h
              simp at h
            | ok p =>
              rw [hpr] at h
              simp only [Except.ok.injEq, Option.some.injEq] at h
              subst h
              refine ⟨t0, d, a0, a1, s, liq, tick, htop, hne, hdata, ?_, ?_, rfl, rfl, rfl, rfl⟩
              · rw [hbs]
                simpa using htup
              · exact hpr

/-- Inversion of a successful `process_swap_log_screener` run. -/
lemma process_swap_log_screener_ok_some_inv (log : RawLog) (flag : Bool) (rec : DecodedSwap)
    (h : process_swap_log_screener log flag = .ok (some rec)) :
    ∃ t0 d a0 a1 s liq tick,
      log.topics.head? = some t0 ∧ pyLower t0 = SWAP_TOPIC ∧
      log.data = some d ∧
      (pyBytesFromHex (pyDrop d 2)).bind ethAbiDecodeSwap = some (a0, a1, s, liq, tick) ∧
      rec.price = ((s : ℚ) ^ 2 / 2 ^ 192) ∧
      rec.tx_hash = log.transactionHash ∧ rec.amount0 = a0 ∧ rec.amount1 = a1 ∧
      rec.trade_type = (if flag then (if a0 > 0 then "buy" else "sell")
                        else (if a1 > 0 then "buy" else "sell")) := by
  unfold process_swap_log_screener at h
  split at h
  · simp at h
  · rename_i t0 htop
    split at h
    · simp at h
    · rename_i hne
      rw [not_not] at hne
      split at h
      · simp at h
      · rename_i d hdata
        split at h
        · simp at h
        · rename_i bs hbs
          split at h
          · simp at h
          · rename_i tup a0 a1 s liq tick htup
            simp only [Except.ok.injEq, Option.some.injEq] at h
            subst h
            refine ⟨t0, d, a0, a1, s, liq, tick, htop, hne, hdata, ?_, rfl, rfl, rfl, rfl, rfl⟩
            rw [hbs]
            simpa using htup

/-- Raw price at the example square-root price `2 ^ 97` is exactly 4. -/
lemma raw_at_2pow97 : (((2 ^ 97 : ℕ) : ℚ) ^ 2 / 2 ^ 192) = 4 := by
  push_cast
  norm_num

/-- The example payload `exDataA` decodes to
`(1, 1, 2 ^ 97, 0, 0)`. -/
lemma exDataA_parse :
    (pyBytesFromHex (pyDrop exDataA 2)).bind ethAbiDecodeSwap =
      some (1, 1, 2 ^ 97, 0, 0) := by decide

/-- The example payload `exDataB` decodes to the same first three fields
with liquidity 1 and tick 1. -/
lemma exDataB_parse :
    (pyBytesFromHex (pyDrop exDataB 2)).bind ethAbiDecodeSwap =
      some (1, 1, 2 ^ 97, 1, 1) := by decide

/-- The all-zero payload decodes to `(0, 0, 0, 0, 0)`. -/
lemma exDataZero_parse :
    (pyBytesFromHex (pyDrop exDataZero 2)).bind ethAbiDecodeSwap =
      some (0, 0, 0, 0, 0) := by decide

lemma process_exLogA_true :
    process_swap_log exLogA true =
      .ok (some { tx_hash := some ("0xabc"), amount0 := 1, amount1 := 1,
                  price := 4, trade_type := "buy" }) := by
  have := process_swap_log_eq_ok exLogA true SWAP_TOPIC exDataA 1 1 (2 ^ 97) 0 0 4
    rfl rfl rfl exDataA_parse price_at_2pow97_true
  simpa [exLogA] using this

lemma process_exLogA_false :
    process_swap_log exLogA false =
      .ok (some { tx_hash := some ("0xabc"), amount0 := 1, amount1 := 1,
                  price := 1 / 4, trade_type := "buy" }) := by
  have := process_swap_log_eq_ok exLogA false SWAP_TOPIC exDataA 1 1 (2 ^ 97) 0 0 (1 / 4)
    rfl rfl rfl exDataA_parse price_at_2pow97_false
  simpa [exLogA] using this

lemma process_exLogA_screener_false :
    process_swap_log_screener exLogA false =
      .ok (some { tx_hash := some ("0xabc"), amount0 := 1, amount1 := 1,
                  price := 4, trade_type := "buy" }) := by
  have := process_swap_log_screener_eq_ok exLogA false SWAP_TOPIC exDataA 1 1 (2 ^ 97) 0 0
    rfl rfl rfl exDataA_parse
  rw [raw_at_2pow97] at this
  simpa [exLogA] using this

/-- The direction classification shared verbatim by all decoder
variants, characterized: "buy" exactly on a strictly positive relevant
amount, "sell" otherwise, zero included. -/
lemma trade_type_cases (flag : Bool) (a0 a1 : Int) (t : String)
    (htt : t = (if flag then (if a0 > 0 then "buy" else "sell")
                else (if a1 > 0 then "buy" else "sell"))) :
    (t = "buy" ↔ 0 < (if flag then a0 else a1)) ∧
    (t = "sell" ↔ ¬ 0 < (if flag then a0 else a1)) ∧
    ((if flag then a0 else a1) = 0 → t = "sell") := by
  subst htt
  refine ⟨?_, ?_, ?_⟩
  · cases flag with
    | true => by_cases h0 : (0 : ℤ) < a0 <;> simp [h0]
    | false => by_cases h0 : (0 : ℤ) < a1 <;> simp [h0]
  · cases flag with
    | true => by_cases h0 : (0 : ℤ) < a0 <;> simp [h0]
    | false => by_cases h0 : (0 : ℤ) < a1 <;> simp [h0]
  · cases flag with
    | true =>
      intro h0
      simp only [if_true] at h0
      simp [h0]
    | false =>
      intro h0
      simp only [Bool.false_eq_true, if_false] at h0
      simp [h0]

lemma process_exLogA_screener_true :
    process_swap_log_screener exLogA true =
      .ok (some { tx_hash := some ("0xabc"), amount0 := 1, amount1 := 1,
                  price := 4, trade_type := "buy" }) := by
  have := process_swap_log_screener_eq_ok exLogA true SWAP_TOPIC exDataA 1 1 (2 ^ 97) 0 0
    rfl rfl rfl exDataA_parse
  rw [raw_at_2pow97] at this
  simpa [exLogA] using this

/-! ## Claim theorems -/

/-- C3: for every decoded Swap log — under the utils decoder and under
the transaction_screener decoder alike — the direction label is "buy"
exactly when the relevant slot amount (`amount0` when the flag is true,
`amount1` when it is false) is strictly positive, and "sell" otherwise;
a zero relevant amount yields "sell". -/
theorem C3_trade_direction (log : RawLog) (flag : Bool) (rec recS : DecodedSwap) :
    (process_swap_log log flag = .ok (some rec) →
      ∃ a0 a1 s liq tick, parseSwapLogData log = some (a0, a1, s, liq, tick) ∧
        (rec.trade_type = "buy" ↔ 0 < (if flag then a0 else a1)) ∧
        (rec.trade_type = "sell" ↔ ¬ 0 < (if flag then a0 else a1)) ∧
        ((if flag then a0 else a1) = 0 → rec.trade_type = "sell")) ∧
    (process_swap_log_screener log flag = .ok (some recS) →
      ∃ a0 a1 s liq tick, parseSwapLogData log = some (a0, a1, s, liq, tick) ∧
        (recS.trade_type = "buy" ↔ 0 < (if flag then a0 else a1)) ∧
        (recS.trade_type = "sell" ↔ ¬ 0 < (if flag then a0 else a1)) ∧
        ((if flag then a0 else a1) = 0 → recS.trade_type = "sell")) := by
  constructor
  · intro h
    obtain ⟨t0, d, a0, a1, s, liq, tick, htop, hm, hdata, hpipe, hpr, htx, ha0, ha1, htt⟩ :=
      process_swap_log_ok_some_inv log flag rec h
    refine ⟨a0, a1, s, liq, tick, ?_, trade_type_cases flag a0 a1 rec.trade_type htt⟩
    unfold parseSwapLogData
    rw [hdata]
    simpa using hpipe
  · intro hS
    obtain ⟨t0, d, a0, a1, s, liq, tick, htop, hm, hdata, hpipe, hprice, htx, ha0, ha1, htt⟩ :=
      process_swap_log_screener_ok_some_inv log flag recS hS
    refine ⟨a0, a1, s, liq, tick, ?_, trade_type_cases flag a0 a1 recS.trade_type htt⟩
    unfold parseSwapLogData
    rw [hdata]
    simpa using hpipe

/-- C3 witness: the concrete log `exLogA` (relevant amount `1 > 0`)
instantiates the direction theorem for both decoders. -/
theorem C3_witness :
    (process_swap_log exLogA true =
      .ok (some { tx_hash := some ("0xabc"), amount0 := 1, amount1 := 1,
                  price := 4, trade_type := "buy" })) ∧
    (process_swap_log_screener exLogA true =
      .ok (some { tx_hash := some ("0xabc"), amount0 := 1, amount1 := 1,
                  price := 4, trade_type := "buy" })) ∧
    (∃ a0 a1 s liq tick, parseSwapLogData exLogA = some (a0, a1, s, liq, tick) ∧
      (("buy" : String) = "buy" ↔ 0 < (if true then a0 else a1)) ∧
      (("buy" : String) = "sell" ↔ ¬ 0 < (if true then a0 else a1)) ∧
      ((if true then a0 else a1) = 0 → ("buy" : String) = "sell")) ∧
    (∃ a0 a1 s liq tick, parseSwapLogData exLogA = some (a0, a1, s, liq, tick) ∧
      (("buy" : String) = "buy" ↔ 0 < (if true then a0 else a1)) ∧
      (("buy" : String) = "sell" ↔ ¬ 0 < (if true then a0 else a1)) ∧
      ((if true then a0 else a1) = 0 → ("buy" : String) = "sell")) :=
  ⟨process_exLogA_true, process_exLogA_screener_true,
   (C3_trade_direction exLogA true
      { tx_hash := some ("0xabc"), amount0 := 1, amount1 := 1,
        price := 4, trade_type := "buy" }
      { tx_hash := some ("0xabc"), amount0 := 1, amount1 := 1,
        price := 4, trade_type := "buy" }).1 process_exLogA_true,
   (C3_trade_direction exLogA true
      { tx_hash := some ("0xabc"), amount0 := 1, amount1 := 1,
        price := 4, trade_type := "buy" }
      { tx_hash := some ("0xabc"), amount0 := 1, amount1 := 1,
        price := 4, trade_type := "buy" }).2 process_exLogA_screener_true⟩

/-- C5: a log whose first topic is absent or does not case-insensitively
equal the Swap signature makes both decoders return the absent result,
with no error, regardless of the log's other fields. -/
theorem C5_non_swap_absent (log : RawLog) (flag flag' : Bool)
    (h : ∀ t0, log.topics.head? = some t0 → pyLower t0 ≠ pyLower SWAP_TOPIC) :
    process_swap_log log flag = .ok none ∧
    process_swap_log_screener log flag' = .ok none := by
  cases htop : log.topics.head? with
  | none => exact process_topic_none log flag flag' htop
  | some t0 => exact process_topic_mismatch log flag flag' t0 htop (h t0 htop)

/-- C5 witness: a concrete log with a non-Swap topic is absent for both
decoders. -/
theorem C5_witness :
    (∀ t0, exLogOther.topics.head? = some t0 → pyLower t0 ≠ pyLower SWAP_TOPIC) ∧
    process_swap_log exLogOther true = .ok none ∧
    process_swap_log_screener exLogOther false = .ok none := by
  have h : ∀ t0, exLogOther.topics.head? = some t0 → pyLower t0 ≠ pyLower SWAP_TOPIC := by
    intro t0 ht
    have ht' : t0 = "0xdeadbeef" := by simpa [exLogOther] using ht.symm
    rw [ht']
    decide
  exact ⟨h, C5_non_swap_absent exLogOther true false h⟩

/-- C6: a log whose first topic matches the Swap signature but whose hex
payload cannot be parsed into the five expected fields makes both
decoders fail with the decode error; neither ever returns the absent
result for such a log. -/
theorem C6_malformed_payload (log : RawLog) (flag flag' : Bool) (t0 d : String)
    (htop : log.topics.head? = some t0)
    (hmatch : pyLower t0 = pyLower SWAP_TOPIC)
    (hdata : log.data = some d)
    (hbad : (pyBytesFromHex (pyDrop d 2)).bind ethAbiDecodeSwap = none) :
    process_swap_log log flag = .error .decodeError ∧
    process_swap_log log flag ≠ .ok none ∧
    process_swap_log_screener log flag' = .error .decodeError ∧
    process_swap_log_screener log flag' ≠ .ok none := by
  obtain ⟨h1, h2⟩ := process_decode_failure log flag flag' t0 d htop hmatch hdata hbad
  refine ⟨h1, ?_, h2, ?_⟩
  · rw [h1]
    simp
  · rw [h2]
    simp

/-- C6 witness: a Swap-topic log whose payload is one word short of the
expected five-word encoding is rejected with the decode error by both
decoders. -/
theorem C6_witness :
    exLogShort.topics.head? = some SWAP_TOPIC ∧
    pyLower SWAP_TOPIC = pyLower SWAP_TOPIC ∧
    exLogShort.data = some ("0x" ++ zeros 64) ∧
    (pyBytesFromHex (pyDrop ("0x" ++ zeros 64) 2)).bind ethAbiDecodeSwap = none ∧
    (process_swap_log exLogShort true = .error .decodeError ∧
     process_swap_log exLogShort true ≠ .ok none ∧
     process_swap_log_screener exLogShort false = .error .decodeError ∧
     process_swap_log_screener exLogShort false ≠ .ok none) :=
  ⟨rfl, rfl, rfl, by decide,
   C6_malformed_payload exLogShort true false SWAP_TOPIC ("0x" ++ zeros 64)
     rfl rfl rfl (by decide)⟩

/-- C1 counterexample: the claim's cited transaction_screener decoders
return the raw, uninverted price even when the token of interest is in
the second slot.  On a Swap log with `sqrtPriceX96 = 2 ^ 97` (raw price
4) and `tokenOfInterestIsFirstSlot = false`, the returned record's price
is 4, while the claim requires `1 / raw = 1 / 4`. -/
theorem C1_counterexample :
    process_swap_log_screener exLogA false =
      .ok (some { tx_hash := some ("0xabc"), amount0 := 1, amount1 := 1,
                  price := 4, trade_type := "buy" }) ∧
    (4 : ℚ) ≠ 1 / (((2 ^ 97 : ℕ) : ℚ) ^ 2 / 2 ^ 192) := by
  refine ⟨process_exLogA_screener_false, ?_⟩
  rw [raw_at_2pow97]
  norm_num

/-- C1 (amended): the utils.py decoder derives `raw` for the first-slot
case and `1 / raw` for the second-slot case, but the transaction_screener
decoders derive `raw` for both flag values (they never invert). -/
theorem C1_amended_price (log : RawLog) (flag : Bool) (rec recS : DecodedSwap)
    (a0 a1 : Int) (s liq : Nat) (tick : Int)
    (hparse : parseSwapLogData log = some (a0, a1, s, liq, tick))
    (h : process_swap_log log flag = .ok (some rec))
    (hS : process_swap_log_screener log flag = .ok (some recS)) :
    rec.price = (if flag then ((s : ℚ) ^ 2 / 2 ^ 192) else 1 / ((s : ℚ) ^ 2 / 2 ^ 192)) ∧
    recS.price = ((s : ℚ) ^ 2 / 2 ^ 192) := by
  obtain ⟨t0, d, a0', a1', s', liq', tick', htop, hm, hdata, hpipe, hpr, _, _, _, _⟩ :=
    process_swap_log_ok_some_inv log flag rec h
  obtain ⟨t0S, dS, b0, b1, sS, liqS, tickS, htopS, hmS, hdataS, hpipeS, hpriceS, _, _, _, _⟩ :=
    process_swap_log_screener_ok_some_inv log flag recS hS
  have hd1 : parseSwapLogData log = some (a0', a1', s', liq', tick') := by
    unfold parseSwapLogData
    rw [hdata]
    simpa using hpipe
  have hd2 : parseSwapLogData log = some (b0, b1, sS, liqS, tickS) := by
    unfold parseSwapLogData
    rw [hdataS]
    simpa using hpipeS
  rw [hparse] at hd1 hd2
  simp only [Option.some.injEq, Prod.mk.injEq] at hd1 hd2
  obtain ⟨-, -, hs1, -, -⟩ := hd1
  obtain ⟨-, -, hs2, -, -⟩ := hd2
  constructor
  · rw [hs1]
    exact compute_price_ok_inv s' flag rec.price hpr
  · rw [hs2]
    exact hpriceS

/-- C1 witness: the amended statement instantiated on `exLogA` with the
flag false: the utils decoder returns `1 / 4`, the screener decoder 4. -/
theorem C1_witness :
    parseSwapLogData exLogA = some (1, 1, 2 ^ 97, 0, 0) ∧
    process_swap_log exLogA false =
      .ok (some { tx_hash := some ("0xabc"), amount0 := 1, amount1 := 1,
                  price := 1 / 4, trade_type := "buy" }) ∧
    process_swap_log_screener exLogA false =
      .ok (some { tx_hash := some ("0xabc"), amount0 := 1, amount1 := 1,
                  price := 4, trade_type := "buy" }) ∧
    ((1 / 4 : ℚ) = (if false then (((2 ^ 97 : ℕ) : ℚ) ^ 2 / 2 ^ 192)
                    else 1 / (((2 ^ 97 : ℕ) : ℚ) ^ 2 / 2 ^ 192)) ∧
     (4 : ℚ) = (((2 ^ 97 : ℕ) : ℚ) ^ 2 / 2 ^ 192)) := by
  have hp : parseSwapLogData exLogA = some (1, 1, 2 ^ 97, 0, 0) := by
    unfold parseSwapLogData
    rw [show exLogA.data = some exDataA from rfl]
    simpa using exDataA_parse
  exact ⟨hp, process_exLogA_false, process_exLogA_screener_false,
    C1_amended_price exLogA false _ _ 1 1 (2 ^ 97) 0 0 hp
      process_exLogA_false process_exLogA_screener_false⟩

/-- C2 counterexample: on a Swap log with `sqrtPriceX96 = 0` and the
token of interest in the first slot, the utils decoder does not fail at
all: it returns a record with the finite price 0.  The claim requires a
failure for both flag values. -/
theorem C2_counterexample :
    process_swap_log exLogZero true =
      .ok (some { tx_hash := some ("0xdef"), amount0 := 0, amount1 := 0,
                  price := 0, trade_type := "sell" }) := by
  have := process_swap_log_eq_ok exLogZero true SWAP_TOPIC exDataZero 0 0 0 0 0 0
    rfl rfl rfl exDataZero_parse price_at_zero_true
  simpa [exLogZero] using this

/-- C2 (amended): when the decoded `sqrtPriceX96` is 0 (raw price 0),
the utils decoder fails — with Python's ZeroDivisionError, not a
dedicated InvalidPrice error — only when the token of interest is in
the second slot, and it never produces an infinite price; when the token
of interest is in the first slot it instead returns a record with price
0. -/
theorem C2_amended_zero_sqrt (log : RawLog) (t0 d : String)
    (a0 a1 : Int) (liq : Nat) (tick : Int)
    (htop : log.topics.head? = some t0)
    (hmatch : pyLower t0 = pyLower SWAP_TOPIC)
    (hdata : log.data = some d)
    (hparse : (pyBytesFromHex (pyDrop d 2)).bind ethAbiDecodeSwap = some (a0, a1, 0, liq, tick)) :
    process_swap_log log false = .error .zeroDivision ∧
    process_swap_log log true =
      .ok (some { tx_hash := log.transactionHash, amount0 := a0, amount1 := a1,
                  price := 0, trade_type := if a0 > 0 then "buy" else "sell" }) := by
  constructor
  · exact process_swap_log_eq_error log false t0 d a0 a1 0 liq tick .zeroDivision
      htop hmatch hdata hparse price_at_zero_false
  · have := process_swap_log_eq_ok log true t0 d a0 a1 0 liq tick 0
      htop hmatch hdata hparse price_at_zero_true
    simpa using this

/-- C2 witness: the amended statement instantiated on the all-zero
payload log. -/
theorem C2_witness :
    exLogZero.topics.head? = some SWAP_TOPIC ∧
    pyLower SWAP_TOPIC = pyLower SWAP_TOPIC ∧
    exLogZero.data = some exDataZero ∧
    (pyBytesFromHex (pyDrop exDataZero 2)).bind ethAbiDecodeSwap = some (0, 0, 0, 0, 0) ∧
    (process_swap_log exLogZero false = .error .zeroDivision ∧
     process_swap_log exLogZero true =
       .ok (some { tx_hash := exLogZero.transactionHash, amount0 := 0, amount1 := 0,
                   price := 0, trade_type := if (0 : ℤ) > 0 then "buy" else "sell" })) :=
  ⟨rfl, rfl, rfl, exDataZero_parse,
   C2_amended_zero_sqrt exLogZero SWAP_TOPIC exDataZero 0 0 0 0
     rfl rfl rfl exDataZero_parse⟩

/-- C7: for every `sqrtPriceX96` with nonzero raw price, the two derived
prices (flag true and flag false) multiply to exactly 1 over the exact
rationals, and at `sqrtPriceX96 = 2 ^ 96` both derived prices equal 1. -/
theorem C7_price_inverse (s : Nat)
    (h : ((s : ℚ) ^ 2 / 2 ^ 192) ≠ 0) :
    ∃ p q, compute_price_in_quote_token s true = .ok p ∧
      compute_price_in_quote_token s false = .ok q ∧
      p * q = 1 ∧ (s = 2 ^ 96 → p = 1 ∧ q = 1) := by
  refine ⟨((s : ℚ) ^ 2 / 2 ^ 192), 1 / ((s : ℚ) ^ 2 / 2 ^ 192), ?_, ?_, ?_, ?_⟩
  · simp [compute_price_in_quote_token]
  · simp [compute_price_in_quote_token, h]
  · exact mul_one_div_cancel h
  · intro hs
    subst hs
    have h1 : (((2 ^ 96 : ℕ) : ℚ) ^ 2 / 2 ^ 192) = 1 := by
      push_cast
      norm_num
    rw [h1]
    norm_num

/-- C7 witness: the round-trip theorem instantiated at
`sqrtPriceX96 = 2 ^ 96`, where both prices are 1. -/
theorem C7_witness :
    ((((2 ^ 96 : ℕ) : ℚ) ^ 2 / 2 ^ 192) ≠ 0) ∧
    (∃ p q, compute_price_in_quote_token (2 ^ 96) true = .ok p ∧
      compute_price_in_quote_token (2 ^ 96) false = .ok q ∧
      p * q = 1 ∧ ((2 ^ 96 : ℕ) = 2 ^ 96 → p = 1 ∧ q = 1)) := by
  have h : (((2 ^ 96 : ℕ) : ℚ) ^ 2 / 2 ^ 192) ≠ 0 := by
    push_cast
    norm_num
  exact ⟨h, C7_price_inverse (2 ^ 96) h⟩

/-- C4: resolution returns true when the token of interest
case-insensitively equals the resolved first-slot address, false when it
equals the resolved second-slot address, and otherwise fails with the
mismatch error carrying the pool, the input token address and both
resolved slot addresses — never silently defaulting.  (The hypothesis
excludes the degenerate case of both slots resolving to the same
address, the spec's own invariant.) -/
theorem C4_resolution (pool alt t0r t1r : String)
    (hnb : ¬ (pyLower alt = pyLower (get_token0 t0r) ∧
              pyLower alt = pyLower (get_token1 t1r))) :
    (detect_if_alt_token_is_token0 pool alt t0r t1r = .ok true ↔
      pyLower alt = pyLower (get_token0 t0r)) ∧
    (detect_if_alt_token_is_token0 pool alt t0r t1r = .ok false ↔
      pyLower alt = pyLower (get_token1 t1r)) ∧
    (detect_if_alt_token_is_token0 pool alt t0r t1r =
        .error (.resolutionMismatch pool alt (get_token0 t0r) (get_token1 t1r)) ↔
      (pyLower alt ≠ pyLower (get_token0 t0r) ∧
       pyLower alt ≠ pyLower (get_token1 t1r))) := by
  by_cases h0 : pyLower alt = pyLower (get_token0 t0r)
  · by_cases h1 : pyLower alt = pyLower (get_token1 t1r)
    · exact absurd ⟨h0, h1⟩ hnb
    · have hne : ¬ pyLower (get_token0 t0r) = pyLower (get_token1 t1r) := by
        rw [← h0]
        exact h1
      have hd : detect_if_alt_token_is_token0 pool alt t0r t1r = .ok true := by
        simp [detect_if_alt_token_is_token0, h0]
      rw [hd]
      simp [h0, h1, hne]
  · by_cases h1 : pyLower alt = pyLower (get_token1 t1r)
    · have hne : ¬ pyLower (get_token1 t1r) = pyLower (get_token0 t0r) := by
        rw [← h1]
        exact h0
      have hd : detect_if_alt_token_is_token0 pool alt t0r t1r = .ok false := by
        simp [detect_if_alt_token_is_token0, h0, h1, hne]
      rw [hd]
      simp [h0, h1, hne]
    · have hd : detect_if_alt_token_is_token0 pool alt t0r t1r =
          .error (.resolutionMismatch pool alt (get_token0 t0r) (get_token1 t1r)) := by
        simp [detect_if_alt_token_is_token0, h0, h1]
      rw [hd]
      simp [h0, h1]

/-- A concrete first-slot `eth_call` result word. -/
def exResult0 : String := "0x" ++ zeros 24 ++ "00112233445566778899aAbBcCdDeEfF00112233"

/-- A concrete second-slot `eth_call` result word. -/
def exResult1 : String := "0x" ++ zeros 24 ++ "ffeeddccbbaa99887766554433221100ffeeddcc"

/-- C4 witness: a token matching neither resolved slot address hits the
mismatch error branch. -/
theorem C4_witness :
    (¬ (pyLower ("0xdead") = pyLower (get_token0 exResult0) ∧
        pyLower ("0xdead") = pyLower (get_token1 exResult1))) ∧
    ((detect_if_alt_token_is_token0 ("0xpool") ("0xdead") exResult0 exResult1 = .ok true ↔
      pyLower ("0xdead") = pyLower (get_token0 exResult0)) ∧
     (detect_if_alt_token_is_token0 ("0xpool") ("0xdead") exResult0 exResult1 = .ok false ↔
      pyLower ("0xdead") = pyLower (get_token1 exResult1)) ∧
     (detect_if_alt_token_is_token0 ("0xpool") ("0xdead") exResult0 exResult1 =
        .error (.resolutionMismatch ("0xpool") ("0xdead")
          (get_token0 exResult0) (get_token1 exResult1)) ↔
      (pyLower ("0xdead") ≠ pyLower (get_token0 exResult0) ∧
       pyLower ("0xdead") ≠ pyLower (get_token1 exResult1)))) :=
  ⟨by decide, C4_resolution ("0xpool") ("0xdead") exResult0 exResult1 (by decide)⟩

/-- The hex digits Python's `bytes.fromhex` accepts. -/
def hexDigits : List Char := "0123456789abcdefABCDEF".data

/-- The lower-case hex digits. -/
def lowerHexDigits : List Char := "0123456789abcdef".data

/-- Lower-casing a hex digit yields a lower-case hex digit. -/
lemma toLower_mem_lowerHex : ∀ c ∈ hexDigits, Char.toLower c ∈ lowerHexDigits := by decide

/-- C8: on a well-formed 32-byte (64-hex-digit) `eth_call` result word,
both slot queries extract the trailing 20 bytes (the last 40 hex
digits), lower-cased and `0x`-prefixed, so each resolved slot address is
a lowercase 0x-prefixed 40-hex-digit string. -/
theorem C8_address_extraction (l : List Char)
    (hlen : l.length = 64) (hhex : ∀ c ∈ l, c ∈ hexDigits) :
    get_token0 (String.mk ('0' :: 'x' :: l)) =
      String.mk ('0' :: 'x' :: (l.drop 24).map Char.toLower) ∧
    get_token1 (String.mk ('0' :: 'x' :: l)) =
      String.mk ('0' :: 'x' :: (l.drop 24).map Char.toLower) ∧
    ((l.drop 24).map Char.toLower).length = 40 ∧
    (∀ c ∈ (l.drop 24).map Char.toLower, c ∈ lowerHexDigits) := by
  have hlen2 : ('0' :: 'x' :: l).length - 40 = 26 := by simp [hlen]
  have hdrop : ('0' :: 'x' :: l).drop 26 = l.drop 24 := by
    rw [show (26 : Nat) = 2 + 24 from rfl, ← List.drop_drop]
    rfl
  have hkey : ("0x" ++ String.mk ((('0' :: 'x' :: l).drop
      (('0' :: 'x' :: l).length - 40)).map Char.toLower) : String) =
      String.mk ('0' :: 'x' :: (l.drop 24).map Char.toLower) := by
    rw [hlen2, hdrop]
    rfl
  refine ⟨hkey, hkey, ?_, ?_⟩
  · simp [hlen]
  · intro c hc
    rw [List.mem_map] at hc
    obtain ⟨c', hc', rfl⟩ := hc
    exact toLower_mem_lowerHex c' (hhex c' (List.mem_of_mem_drop hc'))

/-- A concrete 64-hex-digit result word body with mixed-case letters. -/
def exWordChars : List Char :=
  "000000000000000000000000AbCdEf0011223344556677889900aAbBcCdDeEfF".data

/-- C8 witness: the extraction theorem instantiated on a concrete
mixed-case result word. -/
theorem C8_witness :
    exWordChars.length = 64 ∧
    (∀ c ∈ exWordChars, c ∈ hexDigits) ∧
    (get_token0 (String.mk ('0' :: 'x' :: exWordChars)) =
      String.mk ('0' :: 'x' :: (exWordChars.drop 24).map Char.toLower) ∧
     get_token1 (String.mk ('0' :: 'x' :: exWordChars)) =
      String.mk ('0' :: 'x' :: (exWordChars.drop 24).map Char.toLower) ∧
     ((exWordChars.drop 24).map Char.toLower).length = 40 ∧
     (∀ c ∈ (exWordChars.drop 24).map Char.toLower, c ∈ lowerHexDigits)) :=
  ⟨by decide, by decide, C8_address_extraction exWordChars (by decide) (by decide)⟩


/-- A successful full parse pins down the data field and the pipeline
result. -/
lemma parse_data_some (log : RawLog) (r : Int × Int × Nat × Nat × Int)
    (h : parseSwapLogData log = some r) :
    ∃ d, log.data = some d ∧
      (pyBytesFromHex (pyDrop d 2)).bind ethAbiDecodeSwap = some r := by
  unfold parseSwapLogData at h
  cases hd : log.data with
  | none =>
    rw [hd] at h
    simp at h
  | some d =>
    rw [hd] at h
    exact ⟨d, rfl, by simpa using h⟩

lemma exLogA_parse : parseSwapLogData exLogA = some (1, 1, 2 ^ 97, 0, 0) := by
  unfold parseSwapLogData
  rw [show exLogA.data = some exDataA from rfl]
  simpa using exDataA_parse

lemma exLogB_parse : parseSwapLogData exLogB = some (1, 1, 2 ^ 97, 1, 1) := by
  unfold parseSwapLogData
  rw [show exLogB.data = some exDataB from rfl]
  simpa using exDataB_parse

lemma exLogNoTx_parse : parseSwapLogData exLogNoTx = some (1, 1, 2 ^ 97, 0, 0) := by
  unfold parseSwapLogData
  rw [show exLogNoTx.data = some exDataA from rfl]
  simpa using exDataA_parse

/-- C9: whenever either decoder succeeds, the record it returns (a
`DecodedSwap`, which has exactly the fields `tx_hash`, `amount0`,
`amount1`, `price`, `trade_type` by construction) carries the log's
transaction hash, the two decoded signed 256-bit amounts unchanged, and
a trade type that is always one of "buy" or "sell". -/
theorem C9_record_fields (log : RawLog) (flag : Bool) (rec recS : DecodedSwap)
    (h : process_swap_log log flag = .ok (some rec))
    (hS : process_swap_log_screener log flag = .ok (some recS)) :
    ∃ a0 a1 s liq tick, parseSwapLogData log = some (a0, a1, s, liq, tick) ∧
      rec.tx_hash = log.transactionHash ∧ rec.amount0 = a0 ∧ rec.amount1 = a1 ∧
      (rec.trade_type = "buy" ∨ rec.trade_type = "sell") ∧
      recS.tx_hash = log.transactionHash ∧ recS.amount0 = a0 ∧ recS.amount1 = a1 ∧
      (recS.trade_type = "buy" ∨ recS.trade_type = "sell") := by
  obtain ⟨t0, d, a0, a1, s, liq, tick, htop, hm, hdata, hpipe, hpr, htx, ha0, ha1, htt⟩ :=
    process_swap_log_ok_some_inv log flag rec h
  obtain ⟨t0S, dS, b0, b1, sS, liqS, tickS, htopS, hmS, hdataS, hpipeS, hpriceS, htxS, hb0, hb1, httS⟩ :=
    process_swap_log_screener_ok_some_inv log flag recS hS
  have hdd : d = dS := by
    rw [hdata] at hdataS
    injection hdataS
  subst hdd
  rw [hpipe] at hpipeS
  simp only [Option.some.injEq, Prod.mk.injEq] at hpipeS
  obtain ⟨hb0', hb1', -, -, -⟩ := hpipeS
  refine ⟨a0, a1, s, liq, tick, ?_, htx, ha0, ha1, ?_, htxS, ?_, ?_, ?_⟩
  · unfold parseSwapLogData
    rw [hdata]
    simpa using hpipe
  · rw [htt]
    cases flag with
    | true => by_cases h0 : (0 : ℤ) < a0 <;> simp [h0]
    | false => by_cases h0 : (0 : ℤ) < a1 <;> simp [h0]
  · rw [hb0, ← hb0']
  · rw [hb1, ← hb1']
  · rw [httS]
    cases flag with
    | true => by_cases h0 : (0 : ℤ) < b0 <;> simp [h0]
    | false => by_cases h0 : (0 : ℤ) < b1 <;> simp [h0]

/-- C9 witness: both decoders on `exLogA` at flag true. -/
theorem C9_witness :
    process_swap_log exLogA true =
      .ok (some { tx_hash := some ("0xabc"), amount0 := 1, amount1 := 1,
                  price := 4, trade_type := "buy" }) ∧
    process_swap_log_screener exLogA true =
      .ok (some { tx_hash := some ("0xabc"), amount0 := 1, amount1 := 1,
                  price := 4, trade_type := "buy" }) ∧
    (∃ a0 a1 s liq tick, parseSwapLogData exLogA = some (a0, a1, s, liq, tick) ∧
      (some ("0xabc") : Option String) = exLogA.transactionHash ∧
      (1 : ℤ) = a0 ∧ (1 : ℤ) = a1 ∧
      (("buy" : String) = "buy" ∨ ("buy" : String) = "sell") ∧
      (some ("0xabc") : Option String) = exLogA.transactionHash ∧
      (1 : ℤ) = a0 ∧ (1 : ℤ) = a1 ∧
      (("buy" : String) = "buy" ∨ ("buy" : String) = "sell")) :=
  ⟨process_exLogA_true, process_exLogA_screener_true,
   C9_record_fields exLogA true _ _ process_exLogA_true process_exLogA_screener_true⟩

/-- C10: under both decoders, the decode result depends only on the
first topic, the transaction hash and the first three payload fields —
two logs agreeing on those (but differing in liquidity and/or tick)
decode identically — and a log missing its transaction hash still
decodes under both, with an absent `tx_hash` in the output rather than
an error. -/
theorem C10_unused_fields (l1 l2 l3 : RawLog) (flag flag3 : Bool)
    (a0 a1 : Int) (s liq1 liq2 : Nat) (tick1 tick2 : Int)
    (b0 b1 : Int) (s3 liq3 : Nat) (tick3 : Int) (t3 : String) (p : ℚ)
    (htop : l1.topics.head? = l2.topics.head?)
    (htx : l1.transactionHash = l2.transactionHash)
    (hp1 : parseSwapLogData l1 = some (a0, a1, s, liq1, tick1))
    (hp2 : parseSwapLogData l2 = some (a0, a1, s, liq2, tick2))
    (htop3 : l3.topics.head? = some t3)
    (hm3 : pyLower t3 = pyLower SWAP_TOPIC)
    (hp3 : parseSwapLogData l3 = some (b0, b1, s3, liq3, tick3))
    (htx3 : l3.transactionHash = none)
    (hpr3 : compute_price_in_quote_token s3 flag3 = .ok p) :
    process_swap_log l1 flag = process_swap_log l2 flag ∧
    process_swap_log_screener l1 flag = process_swap_log_screener l2 flag ∧
    process_swap_log l3 flag3 =
      .ok (some { tx_hash := none, amount0 := b0, amount1 := b1, price := p,
                  trade_type := if flag3 then (if b0 > 0 then "buy" else "sell")
                                else (if b1 > 0 then "buy" else "sell") }) ∧
    process_swap_log_screener l3 flag3 =
      .ok (some { tx_hash := none, amount0 := b0, amount1 := b1,
                  price := ((s3 : ℚ) ^ 2 / 2 ^ 192),
                  trade_type := if flag3 then (if b0 > 0 then "buy" else "sell")
                                else (if b1 > 0 then "buy" else "sell") }) := by
  refine ⟨?_, ?_, ?_, ?_⟩
  · cases h1 : l1.topics.head? with
    | none =>
      have h2 : l2.topics.head? = none := by rw [← htop, h1]
      rw [(process_topic_none l1 flag flag h1).1, (process_topic_none l2 flag flag h2).1]
    | some t =>
      have h2 : l2.topics.head? = some t := by rw [← htop, h1]
      by_cases hm : pyLower t = pyLower SWAP_TOPIC
      · obtain ⟨d1, hd1, hpp1⟩ := parse_data_some l1 _ hp1
        obtain ⟨d2, hd2, hpp2⟩ := parse_data_some l2 _ hp2
        cases hc : compute_price_in_quote_token s flag with
        | error e =>
          rw [process_swap_log_eq_error l1 flag t d1 a0 a1 s liq1 tick1 e h1 hm hd1 hpp1 hc,
              process_swap_log_eq_error l2 flag t d2 a0 a1 s liq2 tick2 e h2 hm hd2 hpp2 hc]
        | ok q =>
          rw [process_swap_log_eq_ok l1 flag t d1 a0 a1 s liq1 tick1 q h1 hm hd1 hpp1 hc,
              process_swap_log_eq_ok l2 flag t d2 a0 a1 s liq2 tick2 q h2 hm hd2 hpp2 hc, htx]
      · rw [(process_topic_mismatch l1 flag flag t h1 hm).1,
            (process_topic_mismatch l2 flag flag t h2 hm).1]
  · cases h1 : l1.topics.head? with
    | none =>
      have h2 : l2.topics.head? = none := by rw [← htop, h1]
      rw [(process_topic_none l1 flag flag h1).2, (process_topic_none l2 flag flag h2).2]
    | some t =>
      have h2 : l2.topics.head? = some t := by rw [← htop, h1]
      by_cases hm : pyLower t = pyLower SWAP_TOPIC
      · obtain ⟨d1, hd1, hpp1⟩ := parse_data_some l1 _ hp1
        obtain ⟨d2, hd2, hpp2⟩ := parse_data_some l2 _ hp2
        rw [process_swap_log_screener_eq_ok l1 flag t d1 a0 a1 s liq1 tick1 h1 hm hd1 hpp1,
            process_swap_log_screener_eq_ok l2 flag t d2 a0 a1 s liq2 tick2 h2 hm hd2 hpp2,
            htx]
      · rw [(process_topic_mismatch l1 flag flag t h1 hm).2,
            (process_topic_mismatch l2 flag flag t h2 hm).2]
  · obtain ⟨d3, hd3, hpp3⟩ := parse_data_some l3 _ hp3
    have := process_swap_log_eq_ok l3 flag3 t3 d3 b0 b1 s3 liq3 tick3 p htop3 hm3 hd3 hpp3 hpr3
    rw [htx3] at this
    exact this
  · obtain ⟨d3, hd3, hpp3⟩ := parse_data_some l3 _ hp3
    have := process_swap_log_screener_eq_ok l3 flag3 t3 d3 b0 b1 s3 liq3 tick3
      htop3 hm3 hd3 hpp3
    rw [htx3] at this
    exact this

/-- C10 witness: `exLogA` and `exLogB` differ exactly in liquidity and
tick and decode identically under both decoders; `exLogNoTx` decodes
under both with an absent transaction hash. -/
theorem C10_witness :
    process_swap_log exLogA false = process_swap_log exLogB false ∧
    process_swap_log_screener exLogA false = process_swap_log_screener exLogB false ∧
    process_swap_log exLogNoTx true =
      .ok (some { tx_hash := none, amount0 := 1, amount1 := 1, price := 4,
                  trade_type := if true then (if (1 : ℤ) > 0 then "buy" else "sell")
                                else (if (1 : ℤ) > 0 then "buy" else "sell") }) ∧
    process_swap_log_screener exLogNoTx true =
      .ok (some { tx_hash := none, amount0 := 1, amount1 := 1,
                  price := (((2 ^ 97 : ℕ) : ℚ) ^ 2 / 2 ^ 192),
                  trade_type := if true then (if (1 : ℤ) > 0 then "buy" else "sell")
                                else (if (1 : ℤ) > 0 then "buy" else "sell") }) :=
  C10_unused_fields exLogA exLogB exLogNoTx false true 1 1 (2 ^ 97) 0 1 0 1 1 1 (2 ^ 97) 0 0
    SWAP_TOPIC 4 rfl rfl exLogA_parse exLogB_parse rfl rfl exLogNoTx_parse rfl
    price_at_2pow97_true
